import Mathlib

/-!
A shallow embedding of `src/backend/routers/announcements.py`, the
announcements CRUD router of the school-management API, together with proofs
about its behaviour.

Modelling conventions:
* The announcement collection is a list of documents; `_id` values are the
  opaque generated keys, modelled as `Nat` (the bson ObjectId syntactic check
  is external library code and no property here concerns a malformed id).
* The teacher collection is used only as an existence lookup, so it is a list
  of known identifiers.
* The call-time clock is passed explicitly: `today` is the date-only string
  `datetime.now().strftime` produces, `now` the `datetime.now().isoformat()`
  timestamp.
* Every handler returns `Except ApiError result`; an `.error` outcome carries
  no store, which mirrors the code, where each HTTPException is raised before
  any store mutation (the one no-op `update_one` before `updateFailed` leaves
  the store unchanged as well).
* Store queries follow documented MongoDB semantics: a field whose value is
  null exists (so it fails a negative `$exists` test), and the comparison
  operators `$lte`/`$gte` with a string operand match only string values
  (type bracketing), never null.
* Response shaping (stringifying `_id`) is omitted: it does not change which
  documents are returned.
-/

namespace Announcements

/-- Error kinds of the announcements API: each corresponds to one
HTTPException site in the router. -/
inductive ApiError where
  | unauthenticated
  | invalidCredentials
  | invalidId
  | notFound
  | invalidDateFormat
  | invalidDateRange
  | updateFailed
deriving DecidableEq, Repr

/-- An announcement document as stored in the collection.  A key that can be
present-with-null, present-with-string or missing (only start_date here) is
modelled as Option (Option String): none is a missing key, some none a null
value, some (some s) a string value. -/
structure Announcement where
  _id : Nat
  title : String
  message : String
  expiration_date : String
  start_date : Option (Option String)
  created_by : String
  created_at : String
  updated_at : Option String
deriving DecidableEq, Repr

deriving instance DecidableEq for Except

/-- Lexicographic order on code points, the order the document store uses for
string comparison (binary UTF-8 order agrees with code-point order). -/
def charListLe : List Char → List Char → Bool
  | [], _ => true
  | _ :: _, [] => false
  | a :: as, b :: bs =>
    if a.toNat < b.toNat then true
    else if b.toNat < a.toNat then false
    else charListLe as bs

/-- String comparison used by the store for the $lte and $gte date filters. -/
def strLe (a b : String) : Bool :=
  charListLe a.data b.data

/-- Python truthiness of an optional string: None and the empty string are
falsy.  The router tests every optional parameter this way. -/
def pyTruthy : Option String → Bool
  | none => false
  | some s => s ≠ ""

/-- Python `x or y` on optional strings: keeps x when truthy, else yields y. -/
def pyOrOpt (x y : Option String) : Option String :=
  if pyTruthy x then x else y

/-- The authentication prologue shared by list-all, create, update and delete:
`if not username` raises Authentication required, then a teacher lookup by
identifier, and a missing teacher raises Invalid credentials. -/
def checkAuth (teachers : List String) (username : Option String) :
    Except ApiError Unit :=
  match username with
  | none => .error .unauthenticated
  | some u =>
    if u = "" then .error .unauthenticated
    else if teachers.contains u then .ok () else .error .invalidCredentials

/-- The find filter of get_active_announcements, under MongoDB semantics:
the $or branch `start_date exists false` matches only a missing key, the
branch `start_date $lte today` matches only a string value at most today,
and `expiration_date $gte today` requires a string value at least today. -/
def matchesActive (today : String) (a : Announcement) : Bool :=
  (match a.start_date with
   | none => true
   | some none => false
   | some (some s) => strLe s today)
  && strLe today a.expiration_date

/-- GET /announcements: no authentication, date-window filter. -/
def get_active_announcements (today : String) (db : List Announcement) :
    List Announcement :=
  db.filter (matchesActive today)

/-- GET /announcements/all: authentication, then the unfiltered collection. -/
def get_all_announcements (teachers : List String) (username : Option String)
    (db : List Announcement) : Except ApiError (List Announcement) :=
  match checkAuth teachers username with
  | .error e => .error e
  | .ok _ => .ok db

/-- Gregorian leap-year rule, as datetime implements it. -/
def isLeap (y : Nat) : Bool :=
  (y % 4 = 0 && y % 100 ≠ 0) || y % 400 = 0

/-- Number of days of month m in year y, as datetime validates them. -/
def daysInMonth (y m : Nat) : Nat :=
  if m = 2 then (if isLeap y then 29 else 28)
  else if m = 4 || m = 6 || m = 9 || m = 11 then 30
  else 31

/-- Comparison of two parsed dates, as comparing the datetime values does:
lexicographic on (year, month, day). -/
def dateLt (a b : Nat × Nat × Nat) : Bool :=
  if a.1 < b.1 then true
  else if b.1 < a.1 then false
  else if a.2.1 < b.2.1 then true
  else if b.2.1 < a.2.1 then false
  else decide (a.2.2 < b.2.2)

/-- ASCII digit test. -/
def isDigitChar (c : Char) : Bool :=
  48 ≤ c.toNat && c.toNat ≤ 57

/-- Value of a nonempty all-digit character group; none otherwise. -/
def digitGroupVal : List Char → Nat → Option Nat
  | [], acc => some acc
  | c :: cs, acc =>
    if isDigitChar c then digitGroupVal cs (acc * 10 + (c.toNat - 48))
    else none

/-- Nonempty all-digit group to its numeric value. -/
def digitVal? : List Char → Option Nat
  | [] => none
  | cs => digitGroupVal cs 0

/-- Split a character list at every dash, keeping empty groups, so that a
string matches `Y-M-D` with dash-free components exactly when the split
yields the three components. -/
def splitOnDash : List Char → List (List Char)
  | [] => [[]]
  | c :: cs =>
    if c = '-' then [] :: splitOnDash cs
    else
      match splitOnDash cs with
      | g :: gs => (c :: g) :: gs
      | [] => [[c]]

/-- datetime.strptime with format %Y-%m-%d, returning the parsed
(year, month, day) or none for a ValueError.  CPython compiles the format to
the anchored pattern with a 4-digit year group, a month group of one or two
digits valued 1..12, a day group of one or two digits valued 1..31, requires
the whole string to be consumed, and then datetime validates the day against
the month length and the year against MINYEAR = 1.  Since no component may
contain a dash, a full match is exactly a three-way dash split whose groups
satisfy those conditions. -/
def strptimeYmd (s : String) : Option (Nat × Nat × Nat) :=
  match splitOnDash s.data with
  | [ys, ms, ds] =>
    match digitVal? ys, digitVal? ms, digitVal? ds with
    | some y, some m, some d =>
      if ys.length = 4 && (ms.length = 1 || ms.length = 2)
          && (ds.length = 1 || ds.length = 2)
          && 1 ≤ y && 1 ≤ m && m ≤ 12 && 1 ≤ d && d ≤ daysInMonth y m
      then some (y, m, d) else none
    | _, _, _ => none
  | _ => none

/-- The date-validation block of create_announcement: parse expiration_date
(ValueError becomes the invalid-format error), parse start_date only when it
is truthy, and reject a parsed start after the parsed expiration. -/
def validateCreateDates (expiration_date : String) (start_date : Option String) :
    Option ApiError :=
  match strptimeYmd expiration_date with
  | none => some .invalidDateFormat
  | some expd =>
    match start_date with
    | none => none
    | some s =>
      if s = "" then none
      else
        match strptimeYmd s with
        | none => some .invalidDateFormat
        | some sd => if dateLt expd sd then some .invalidDateRange else none

/-- POST /announcements: authentication, date validation, then insertion of
the document exactly as the handler builds it.  Note the inserted document
always carries the start_date key, with a null value when the parameter was
omitted, and that no field beyond the dates is validated. -/
def create_announcement (teachers : List String) (nextId : Nat) (now : String)
    (title message expiration_date : String) (start_date : Option String)
    (username : Option String) (db : List Announcement) :
    Except ApiError (List Announcement × Announcement) :=
  match checkAuth teachers username with
  | .error e => .error e
  | .ok _ =>
    match validateCreateDates expiration_date start_date with
    | some e => .error e
    | none =>
      let a : Announcement :=
        { _id := nextId
          title := title
          message := message
          expiration_date := expiration_date
          start_date := some start_date
          created_by := username.getD ""
          created_at := now
          updated_at := none }
      .ok (db ++ [a], a)

/-- The update_data dictionary built by update_announcement.  A none field is
an absent key; start_date distinguishes absent (none), set to null
(some none) and set to a string (some (some s)). -/
structure UpdateData where
  title : Option String
  message : Option String
  expiration_date : Option String
  start_date : Option (Option String)
deriving DecidableEq, Repr

/-- The empty update_data dictionary. -/
def emptyUpdateData : UpdateData :=
  { title := none, message := none, expiration_date := none, start_date := none }

/-- The update_data dictionary the source assembles when no validation
fails: truthy title and message are copied, a truthy expiration_date is
copied, and start_date has the tri-state handling of the source (parameter
absent: no key; empty string: key set to null; other value: key set). -/
def udOf (title message expiration_date start_date : Option String) :
    UpdateData :=
  { title := if pyTruthy title then title else none
    message := if pyTruthy message then message else none
    expiration_date := if pyTruthy expiration_date then expiration_date else none
    start_date := match start_date with
      | none => none
      | some s => if s = "" then some none else some (some s) }

/-- Building update_data from the request parameters.  The source validates
while assembling the dictionary: a truthy expiration_date failing strptime
raises first, then a truthy start_date failing strptime; title and message
have no validation, and falsy date parameters are never parsed. -/
def buildUpdateData (title message expiration_date start_date : Option String) :
    Except ApiError UpdateData :=
  if pyTruthy expiration_date
      && (strptimeYmd (expiration_date.getD "")).isNone then
    .error .invalidDateFormat
  else if pyTruthy start_date
      && (strptimeYmd (start_date.getD "")).isNone then
    .error .invalidDateFormat
  else .ok (udOf title message expiration_date start_date)

/-- update_data.get of the start_date key: absent and null both give None. -/
def udGetStart (ud : UpdateData) : Option String :=
  match ud.start_date with
  | some (some s) => some s
  | _ => none

/-- announcement.get of the start_date key of a stored document: absent and
null both give None. -/
def docGetStart (a : Announcement) : Option String :=
  match a.start_date with
  | some (some s) => some s
  | _ => none

/-- The start value the range check compares: the update value if truthy,
else the stored document's value (Python or-chaining). -/
def effectiveStart (a : Announcement) (ud : UpdateData) : Option String :=
  pyOrOpt (udGetStart ud) (docGetStart a)

/-- The expiration value the range check compares: the update value if
truthy, else the stored document's value. -/
def effectiveExp (a : Announcement) (ud : UpdateData) : Option String :=
  pyOrOpt ud.expiration_date (some a.expiration_date)

/-- The validate-dates-if-provided block of update_announcement: only when
update_data touches a date key, compare the truthy effective values when
both parse (a ValueError inside this block is swallowed by the source). -/
def rangeCheck (a : Announcement) (ud : UpdateData) : Option ApiError :=
  if ud.start_date.isSome || ud.expiration_date.isSome then
    if pyTruthy (effectiveStart a ud) && pyTruthy (effectiveExp a ud) then
      match strptimeYmd ((effectiveStart a ud).getD ""),
          strptimeYmd ((effectiveExp a ud).getD "") with
      | some sd, some ed => if dateLt ed sd then some .invalidDateRange else none
      | _, _ => none
    else none
  else none

/-- The $set of update_data onto the stored document, together with the
unconditional updated_at stamp. -/
def applyUpdate (a : Announcement) (ud : UpdateData) (now : String) :
    Announcement :=
  { a with
    title := ud.title.getD a.title
    message := ud.message.getD a.message
    expiration_date := ud.expiration_date.getD a.expiration_date
    start_date := match ud.start_date with
      | some v => some v
      | none => a.start_date
    updated_at := some now }

/-- find_one by _id: the first document with the key. -/
def findDoc (db : List Announcement) (id : Nat) : Option Announcement :=
  db.find? (fun a => a._id == id)

/-- update_one by _id: replace the first document with the key. -/
def setFirst (id : Nat) (nd : Announcement) : List Announcement → List Announcement
  | [] => []
  | a :: rest => if a._id == id then nd :: rest else a :: setFirst id nd rest

/-- delete_one by _id: remove the first document with the key. -/
def eraseFirst (id : Nat) : List Announcement → List Announcement
  | [] => []
  | a :: rest => if a._id == id then rest else a :: eraseFirst id rest

/-- PUT /announcements/id: authentication, existence, update_data building
with per-field validation, the effective range check, then the $set.  The
store reports a modified count of zero exactly when every written value,
updated_at included, already equals the stored one, and the handler turns
that into the update-failed error. -/
def update_announcement (teachers : List String) (now : String)
    (announcement_id : Nat)
    (title message expiration_date start_date username : Option String)
    (db : List Announcement) :
    Except ApiError (List Announcement × Announcement) :=
  match checkAuth teachers username with
  | .error e => .error e
  | .ok _ =>
    match findDoc db announcement_id with
    | none => .error .notFound
    | some a =>
      match buildUpdateData title message expiration_date start_date with
      | .error e => .error e
      | .ok ud =>
        match rangeCheck a ud with
        | some e => .error e
        | none =>
          let nd := applyUpdate a ud now
          if nd = a then .error .updateFailed
          else .ok (setFirst announcement_id nd db, nd)

/-- DELETE /announcements/id: authentication, then delete_one, and a deleted
count of zero becomes the not-found error. -/
def delete_announcement (teachers : List String) (announcement_id : Nat)
    (username : Option String) (db : List Announcement) :
    Except ApiError (List Announcement) :=
  match checkAuth teachers username with
  | .error e => .error e
  | .ok _ =>
    if db.any (fun a => a._id == announcement_id) then
      .ok (eraseFirst announcement_id db)
    else .error .notFound

/-- The store state after an update call: the new store on success, the
unchanged store on any error (every HTTPException is raised before the
update_one, and the update-failed branch follows a no-op update_one). -/
def updateEndStore (teachers : List String) (now : String)
    (announcement_id : Nat)
    (title message expiration_date start_date username : Option String)
    (db : List Announcement) : List Announcement :=
  match update_announcement teachers now announcement_id
      title message expiration_date start_date username db with
  | .ok (db2, _) => db2
  | .error _ => db

/-- The fixed-width YYYY-MM-DD shape the specification asserts of accepted
date strings: four digit year, two digit month, two digit day. -/
def specFixedYmd (s : String) : Bool :=
  match splitOnDash s.data with
  | [ys, ms, ds] =>
    ys.length = 4 && ms.length = 2 && ds.length = 2
      && ys.all isDigitChar && ms.all isDigitChar && ds.all isDigitChar
  | _ => false

/-- The range violation the specification attributes to a resulting document
state: a present string start date parsing after the parsing expiration
date. -/
def specResultRangeViolation (r : Announcement) : Bool :=
  match r.start_date with
  | some (some s) =>
    match strptimeYmd s, strptimeYmd r.expiration_date with
    | some sd, some ed => dateLt ed sd
    | _, _ => false
  | _ => false

/-- A successful update_data build yields exactly the dictionary of the
supplied truthy fields. -/
theorem buildUpdateData_ok (t m e s : Option String) (ud : UpdateData)
    (h : buildUpdateData t m e s = .ok ud) : ud = udOf t m e s := by
  unfold buildUpdateData at h
  split at h
  · exact absurd h (by simp)
  · split at h
    · exact absurd h (by simp)
    · exact (Except.ok.inj h).symm

/-- C1: the claim says an announcement created with start_date omitted and
expiration_date D is listed by listActive exactly when today is at most D.
Evaluating the code at a concrete input refutes the listed direction: the
insert stores a null start_date key, which the active filter's exists-false
branch does not match and its string $lte branch does not match either, so
the announcement is never listed although today is before D.  This
contradicts the filter's own comment, which counts a None start_date as
started. -/
theorem c1_create_omitted_start_never_active :
    create_announcement ["ms_jones"] 1 "2024-01-01T00:00:00" "Exam" "msg"
        "2099-01-01" none (some "ms_jones") []
      = .ok ([⟨1, "Exam", "msg", "2099-01-01", some none, "ms_jones",
              "2024-01-01T00:00:00", none⟩],
             ⟨1, "Exam", "msg", "2099-01-01", some none, "ms_jones",
              "2024-01-01T00:00:00", none⟩)
    ∧ strLe "2024-06-01" "2099-01-01" = true
    ∧ get_active_announcements "2024-06-01"
        [⟨1, "Exam", "msg", "2099-01-01", some none, "ms_jones",
          "2024-01-01T00:00:00", none⟩] = [] := by
  decide

/-- C2: the claim says an update clearing start_date makes the document
visible whenever its expiration permits.  Evaluating the code: clearing
writes a null value (a $set to None, not an unset), and a null start_date
matches neither branch of the active filter, so the updated document is
never listed although its expiration date is far in the future. -/
theorem c2_cleared_start_never_active :
    update_announcement ["t"] "2024-06-02T10:00:00" 5 none none none (some "")
        (some "t")
        [⟨5, "T", "M", "2099-12-31", some (some "2020-01-01"), "t", "c", none⟩]
      = .ok ([⟨5, "T", "M", "2099-12-31", some none, "t", "c",
              some "2024-06-02T10:00:00"⟩],
             ⟨5, "T", "M", "2099-12-31", some none, "t", "c",
              some "2024-06-02T10:00:00"⟩)
    ∧ strLe "2024-06-01" "2099-12-31" = true
    ∧ get_active_announcements "2024-06-01"
        [⟨5, "T", "M", "2099-12-31", some none, "t", "c",
          some "2024-06-02T10:00:00"⟩] = [] := by
  decide

/-- C4: an authenticated create whose start_date and expiration_date both
parse and whose start date is after its expiration date fails with the
invalid-range error; the exception is raised before insert_one, so no
document is inserted (an error result carries no store). -/
theorem c4_create_range_rejects (teachers : List String) (nextId : Nat)
    (now title message e s u : String) (db : List Announcement)
    (expd sd : Nat × Nat × Nat)
    (hauth : checkAuth teachers (some u) = .ok ())
    (hexp : strptimeYmd e = some expd)
    (hs : strptimeYmd s = some sd)
    (hlt : dateLt expd sd = true) :
    create_announcement teachers nextId now title message e (some s) (some u) db
      = .error .invalidDateRange := by
  have hs0 : s ≠ "" := by
    intro h
    rw [h] at hs
    have hnone : strptimeYmd "" = none := by decide
    rw [hnone] at hs
    exact Option.noConfusion hs
  simp [create_announcement, hauth, validateCreateDates, hexp, hs0, hs, hlt]

/-- Witness for C4 at the specification's own example: expiration 2025-06-01
with start 2025-06-10. -/
theorem c4_create_range_rejects_witness :
    create_announcement ["ms_jones"] 1 "now" "Exam Week" "Finals start Monday"
        "2025-06-01" (some "2025-06-10") (some "ms_jones") []
      = .error .invalidDateRange :=
  c4_create_range_rejects ["ms_jones"] 1 "now" "Exam Week"
    "Finals start Monday" "2025-06-01" "2025-06-10" "ms_jones" []
    (2025, 6, 1) (2025, 6, 10) (by decide) (by decide) (by decide) (by decide)

/-- C5 counterexample: an explicitly supplied empty identifier is absent
from the credential gate, yet list-all reports the missing-identifier error
rather than the invalid-credentials error, because the source tests Python
truthiness of the parameter.  This refutes the claim's second branch as
stated. -/
theorem c5_counterexample_empty_identifier :
    List.contains ["ms_jones"] "" = false
    ∧ get_all_announcements ["ms_jones"] (some "") [] = .error .unauthenticated
    ∧ ApiError.unauthenticated ≠ ApiError.invalidCredentials := by
  decide

/-- C5 amended: for list-all, create, update and delete, a missing or empty
caller identifier fails with the missing-identifier error and a non-empty
identifier unknown to the credential gate fails with the invalid-credentials
error; the outcome is the same for every store state, since the check
precedes any read or mutation of the announcement collection. -/
theorem c5_amended_auth_gate (teachers : List String) (u : String)
    (db : List Announcement) (id nextId : Nat) (now tt mm ee : String)
    (s : Option String)
    (hu : u ≠ "") (hnf : teachers.contains u = false) :
    (get_all_announcements teachers none db = .error .unauthenticated
      ∧ create_announcement teachers nextId now tt mm ee s none db
          = .error .unauthenticated
      ∧ update_announcement teachers now id (some tt) (some mm) (some ee) s
          none db = .error .unauthenticated
      ∧ delete_announcement teachers id none db = .error .unauthenticated)
    ∧ (get_all_announcements teachers (some "") db = .error .unauthenticated
      ∧ create_announcement teachers nextId now tt mm ee s (some "") db
          = .error .unauthenticated
      ∧ update_announcement teachers now id (some tt) (some mm) (some ee) s
          (some "") db = .error .unauthenticated
      ∧ delete_announcement teachers id (some "") db
          = .error .unauthenticated)
    ∧ (get_all_announcements teachers (some u) db
          = .error .invalidCredentials
      ∧ create_announcement teachers nextId now tt mm ee s (some u) db
          = .error .invalidCredentials
      ∧ update_announcement teachers now id (some tt) (some mm) (some ee) s
          (some u) db = .error .invalidCredentials
      ∧ delete_announcement teachers id (some u) db
          = .error .invalidCredentials) := by
  have hnf2 : ¬(u ∈ teachers) := by simpa using hnf
  refine ⟨⟨?_, ?_, ?_, ?_⟩, ⟨?_, ?_, ?_, ?_⟩, ?_, ?_, ?_, ?_⟩ <;>
    simp [get_all_announcements, create_announcement, update_announcement,
      delete_announcement, checkAuth, hu, hnf2]

/-- Witness for C5 amended: a concrete unknown identifier and the missing
identifier, against the one-teacher gate. -/
theorem c5_amended_auth_gate_witness :
    get_all_announcements ["ms_jones"] none [] = .error .unauthenticated
    ∧ get_all_announcements ["ms_jones"] (some "zz") []
        = .error .invalidCredentials := by
  have h := c5_amended_auth_gate ["ms_jones"] "zz" [] 0 1 "n" "t" "m" "e" none
    (by decide) (by decide)
  exact ⟨h.1.1, h.2.2.1⟩

/-- C7 counterexample: create performs no title validation, so an
authenticated create with an empty title succeeds and inserts a document
whose title is empty, refuting the claim that create rejects an empty
title. -/
theorem c7_counterexample_empty_title_created :
    create_announcement ["t"] 1 "now" "" "msg" "2099-01-01" none (some "t") []
      = .ok ([⟨1, "", "msg", "2099-01-01", some none, "t", "now", none⟩],
             ⟨1, "", "msg", "2099-01-01", some none, "t", "now", none⟩)
    ∧ (⟨1, "", "msg", "2099-01-01", some none, "t", "now",
        none⟩ : Announcement).title = "" := by
  decide

/-- C7 amended: update never sets the title to an empty value, since a falsy
title parameter is left out of update_data, so a successful update of a
document with non-empty title yields a non-empty title; create, however,
performs no title validation and stores the supplied title verbatim, so
empty-titled documents are reachable. -/
theorem c7_amended_title (teachers : List String) (now : String)
    (id nextId : Nat) (t m e s u uu : Option String)
    (title message expd : String)
    (db db2 db' : List Announcement) (a d : Announcement)
    (hupd : update_announcement teachers now id t m e s u db = .ok (db', d))
    (hfind : findDoc db id = some a)
    (ht : a.title ≠ "") :
    d.title ≠ ""
    ∧ (∀ r : List Announcement × Announcement,
        create_announcement teachers nextId now title message expd none uu db2
          = .ok r → r.2.title = title) := by
  constructor
  · unfold update_announcement at hupd
    cases hA : checkAuth teachers u with
    | error er => rw [hA] at hupd; simp at hupd
    | ok u0 =>
      cases hB : buildUpdateData t m e s with
      | error er => simp only [hA, hfind, hB] at hupd; simp at hupd
      | ok ud =>
        cases hR : rangeCheck a ud with
        | some er => simp only [hA, hfind, hB, hR] at hupd; simp at hupd
        | none =>
          by_cases hnd : applyUpdate a ud now = a
          · simp only [hA, hfind, hB, hR, if_pos hnd] at hupd; simp at hupd
          · simp only [hA, hfind, hB, hR, if_neg hnd, Except.ok.injEq,
              Prod.mk.injEq] at hupd
            have hd : d = applyUpdate a ud now := hupd.2.symm
            have hud : ud = udOf t m e s := buildUpdateData_ok t m e s ud hB
            rw [hd]
            unfold applyUpdate
            rw [hud]
            unfold udOf
            cases ht0 : t with
            | none => simpa [pyTruthy] using ht
            | some tv =>
              by_cases htv : tv = ""
              · simpa [pyTruthy, htv] using ht
              · simp [pyTruthy, htv]
  · intro r hr
    unfold create_announcement at hr
    cases hA : checkAuth teachers uu with
    | error er => rw [hA] at hr; simp at hr
    | ok u0 =>
      cases hV : validateCreateDates expd none with
      | some er => simp only [hA, hV] at hr; simp at hr
      | none =>
        simp only [hA, hV] at hr
        have := Except.ok.inj hr
        rw [← this]

/-- Witness for C7 amended: a no-field update of a document titled Old, and
a create with title T2, both at concrete stores. -/
theorem c7_amended_title_witness :
    (⟨7, "Old", "M", "2099-01-01", some none, "t", "c",
      some "N"⟩ : Announcement).title ≠ ""
    ∧ (([⟨1, "T2", "M2", "2099-01-01", some none, "t", "N", none⟩],
        (⟨1, "T2", "M2", "2099-01-01", some none, "t", "N",
          none⟩ : Announcement)) :
        List Announcement × Announcement).2.title = "T2" := by
  have h := c7_amended_title ["t"] "N" 7 1 none none none none (some "t")
    (some "t") "T2" "M2" "2099-01-01"
    [⟨7, "Old", "M", "2099-01-01", some none, "t", "c", none⟩] []
    [⟨7, "Old", "M", "2099-01-01", some none, "t", "c", some "N"⟩]
    ⟨7, "Old", "M", "2099-01-01", some none, "t", "c", none⟩
    ⟨7, "Old", "M", "2099-01-01", some none, "t", "c", some "N"⟩
    (by decide) (by decide) (by decide)
  exact ⟨h.1, h.2 _ (by decide)⟩

/-- C6 counterexample: strptime with the %Y-%m-%d format accepts the
non-zero-padded string 2025-6-1, which create therefore accepts and stores,
yet the string is not fixed-width YYYY-MM-DD and lexicographic comparison
disagrees with date order on it: June 1st precedes October 1st as a date
but follows it in string order.  This refutes the claim's converse
clause. -/
theorem c6_counterexample_nonpadded_date :
    strptimeYmd "2025-6-1" = some (2025, 6, 1)
    ∧ specFixedYmd "2025-6-1" = false
    ∧ create_announcement ["t"] 1 "now" "T" "M" "2025-6-1" none (some "t") []
        = .ok ([⟨1, "T", "M", "2025-6-1", some none, "t", "now", none⟩],
               ⟨1, "T", "M", "2025-6-1", some none, "t", "now", none⟩)
    ∧ dateLt (2025, 6, 1) (2025, 10, 1) = true
    ∧ strLe "2025-6-1" "2025-10-01" = false := by
  decide

/-- C6 amended: in create, an expiration_date failing strptime, or a
non-empty start_date failing strptime, fails with the invalid-format error;
in update, a provided non-empty expiration_date or start_date failing
strptime fails likewise (empty strings are treated as omitted, or for
start_date as clearing); accepted strings are strptime dates, which need
not be fixed-width. -/
theorem c6_amended_date_format (teachers : List String) (nextId id : Nat)
    (now title message e s : String) (tp mp sp : Option String)
    (u : Option String) (db : List Announcement) (a : Announcement)
    (hauth : checkAuth teachers u = .ok ()) :
    (strptimeYmd e = none →
      create_announcement teachers nextId now title message e none u db
        = .error .invalidDateFormat)
    ∧ (∀ ed, strptimeYmd e = some ed → s ≠ "" → strptimeYmd s = none →
      create_announcement teachers nextId now title message e (some s) u db
        = .error .invalidDateFormat)
    ∧ (findDoc db id = some a → e ≠ "" → strptimeYmd e = none →
      update_announcement teachers now id tp mp (some e) sp u db
        = .error .invalidDateFormat)
    ∧ (findDoc db id = some a → s ≠ "" → strptimeYmd s = none →
      update_announcement teachers now id tp mp none (some s) u db
        = .error .invalidDateFormat) := by
  refine ⟨?_, ?_, ?_, ?_⟩
  · intro he
    simp [create_announcement, hauth, validateCreateDates, he]
  · intro ed hed hs0 hs
    simp [create_announcement, hauth, validateCreateDates, hed, hs0, hs]
  · intro hfind he0 he
    simp [update_announcement, hauth, hfind, buildUpdateData, pyTruthy,
      he0, he]
  · intro hfind hs0 hs
    simp [update_announcement, hauth, hfind, buildUpdateData, pyTruthy,
      hs0, hs]

/-- Witness for C6 amended: a slash-format create date and a junk update
start date both draw the invalid-format error. -/
theorem c6_amended_date_format_witness :
    create_announcement ["t"] 1 "n" "T" "M" "2025/06/01" none (some "t") []
      = .error .invalidDateFormat
    ∧ update_announcement ["t"] "n" 3 none none none (some "junk") (some "t")
        [⟨3, "T", "M", "2099-01-01", some none, "t", "c", none⟩]
      = .error .invalidDateFormat := by
  have h := c6_amended_date_format ["t"] 1 3 "n" "T" "M" "2025/06/01" "junk"
    none none none (some "t")
    [⟨3, "T", "M", "2099-01-01", some none, "t", "c", none⟩]
    ⟨3, "T", "M", "2099-01-01", some none, "t", "c", none⟩ (by decide)
  exact ⟨h.1 (by decide), h.2.2.2 (by decide) (by decide) (by decide)⟩

/-- The only error the update range check can produce is the invalid-range
one. -/
theorem rangeCheck_some (a : Announcement) (ud : UpdateData) (er : ApiError)
    (h : rangeCheck a ud = some er) : er = .invalidDateRange := by
  unfold rangeCheck at h
  split at h
  · split at h
    · split at h
      · split at h
        · exact (Option.some.inj h).symm
        · exact Option.noConfusion h
      · exact Option.noConfusion h
    · exact Option.noConfusion h
  · exact Option.noConfusion h

/-- Characterization of the update range check: it rejects exactly when a
date key is in update_data and both effective values (the truthy supplied
value, else the stored one) are non-empty strptime dates with the start
after the expiration. -/
theorem rangeCheck_range_iff (a : Announcement) (ud : UpdateData) :
    rangeCheck a ud = some .invalidDateRange
    ↔ ((ud.start_date.isSome || ud.expiration_date.isSome) = true
       ∧ ∃ sv ev sd ed, effectiveStart a ud = some sv ∧ sv ≠ ""
          ∧ effectiveExp a ud = some ev ∧ ev ≠ ""
          ∧ strptimeYmd sv = some sd ∧ strptimeYmd ev = some ed
          ∧ dateLt ed sd = true) := by
  unfold rangeCheck
  cases hg : (ud.start_date.isSome || ud.expiration_date.isSome) with
  | false => simp
  | true =>
    cases hs : effectiveStart a ud with
    | none => simp [pyTruthy, hs]
    | some sv =>
      cases he : effectiveExp a ud with
      | none => simp [pyTruthy, hs, he]
      | some ev =>
        by_cases hsv : sv = ""
        · subst hsv
          simp [pyTruthy, hs, he]
        · by_cases hev : ev = ""
          · subst hev
            simp [pyTruthy, hs, he, hsv]
          · cases hps : strptimeYmd sv with
            | none => simp [pyTruthy, hs, he, hsv, hev, hps]
            | some sd =>
              cases hpe : strptimeYmd ev with
              | none => simp [pyTruthy, hs, he, hsv, hev, hps, hpe]
              | some ed =>
                cases hlt : dateLt ed sd with
                | true =>
                  refine iff_of_true ?_
                    ⟨rfl, sv, ev, sd, ed, rfl, hsv, rfl, hev, hps, hpe, hlt⟩
                  simp [pyTruthy, hs, he, hsv, hev, hps, hpe, hlt]
                | false =>
                  refine iff_of_false ?_ ?_
                  · simp [pyTruthy, hs, he, hsv, hev, hps, hpe, hlt]
                  · rintro ⟨hg2, sv2, ev2, sd2, ed2, hs2, hsv2, he2, hev2,
                      hps2, hpe2, hlt2⟩
                    cases Option.some.inj hs2
                    cases Option.some.inj he2
                    rw [hps] at hps2
                    rw [hpe] at hpe2
                    cases Option.some.inj hps2
                    cases Option.some.inj hpe2
                    rw [hlt] at hlt2
                    exact Bool.noConfusion hlt2

/-- C3 counterexample: stored start 2025-05-10 and expiration 2025-05-20;
one update clears start_date and lowers the expiration to 2025-05-01.  In
the resulting document state the start is null, so the claim's effective
range check passes, yet the code falls back to the stored start value for a
cleared field and rejects with the invalid-range error. -/
theorem c3_counterexample_cleared_start_fallback :
    update_announcement ["t"] "n" 1 none none (some "2025-05-01") (some "")
        (some "t")
        [⟨1, "T", "M", "2025-05-20", some (some "2025-05-10"), "t", "c",
          none⟩]
      = .error .invalidDateRange
    ∧ specResultRangeViolation
        (applyUpdate
          ⟨1, "T", "M", "2025-05-20", some (some "2025-05-10"), "t", "c",
            none⟩
          (udOf none none (some "2025-05-01") (some "")) "n") = false := by
  decide

/-- C3 amended: for an authenticated update of an existing document whose
per-field validation passes, the update fails with the invalid-range error
exactly when a date key was supplied and the effective values compare
wrongly, where the effective value of a field is the supplied one when
truthy and otherwise the stored one — so a cleared start_date falls back to
the stored start rather than counting as absent.  On that failure the
exception precedes the write, so the stored document is unchanged (an error
result carries no store). -/
theorem c3_amended_effective_range (teachers : List String) (now : String)
    (id : Nat) (tp mp ep sp u : Option String) (db : List Announcement)
    (a : Announcement) (ud : UpdateData)
    (hauth : checkAuth teachers u = .ok ())
    (hfind : findDoc db id = some a)
    (hud : buildUpdateData tp mp ep sp = .ok ud) :
    update_announcement teachers now id tp mp ep sp u db
        = .error .invalidDateRange
    ↔ ((ud.start_date.isSome || ud.expiration_date.isSome) = true
       ∧ ∃ sv ev sd ed, effectiveStart a ud = some sv ∧ sv ≠ ""
          ∧ effectiveExp a ud = some ev ∧ ev ≠ ""
          ∧ strptimeYmd sv = some sd ∧ strptimeYmd ev = some ed
          ∧ dateLt ed sd = true) := by
  rw [← rangeCheck_range_iff]
  unfold update_announcement
  simp only [hauth, hfind, hud]
  cases hR : rangeCheck a ud with
  | none =>
    refine iff_of_false ?_ (by simp)
    by_cases hnd : applyUpdate a ud now = a
    · simp [hnd]
    · simp [hnd]
  | some er =>
    have her := rangeCheck_some a ud er hR
    subst her
    simp

/-- Witness for C3 amended: lowering only the expiration below the stored
start draws the invalid-range error, through the backward direction of the
characterization. -/
theorem c3_amended_effective_range_witness :
    update_announcement ["t"] "n" 1 none none (some "2025-05-01") none
        (some "t")
        [⟨1, "T", "M", "2025-05-20", some (some "2025-05-10"), "t", "c",
          none⟩]
      = .error .invalidDateRange := by
  refine (c3_amended_effective_range ["t"] "n" 1 none none
    (some "2025-05-01") none (some "t")
    [⟨1, "T", "M", "2025-05-20", some (some "2025-05-10"), "t", "c", none⟩]
    ⟨1, "T", "M", "2025-05-20", some (some "2025-05-10"), "t", "c", none⟩
    (udOf none none (some "2025-05-01") none)
    (by decide) (by decide) (by decide)).mpr
    ⟨by decide, "2025-05-10", "2025-05-01", (2025, 5, 10), (2025, 5, 1),
      by decide, by decide, by decide, by decide, by decide, by decide,
      by decide⟩

/-- A delete_one matching nothing leaves the collection as it was. -/
theorem eraseFirst_no_match (id : Nat) (db : List Announcement)
    (h : db.any (fun a => a._id == id) = false) : eraseFirst id db = db := by
  induction db with
  | nil => rfl
  | cons b rest ih =>
    simp only [List.any_cons, Bool.or_eq_false_iff] at h
    show (if b._id == id then rest else b :: eraseFirst id rest) = b :: rest
    rw [if_neg (by simp [h.1]), ih h.2]

/-- With pairwise distinct keys, the collection left by a delete_one holds
no further document with the deleted key. -/
theorem any_eraseFirst_nodup (id : Nat) (db : List Announcement)
    (hnodup : (db.map (fun a => a._id)).Nodup) :
    (eraseFirst id db).any (fun a => a._id == id) = false := by
  induction db with
  | nil => rfl
  | cons b rest ih =>
    simp only [List.map_cons, List.nodup_cons] at hnodup
    show (if b._id == id then rest else b :: eraseFirst id rest).any
        (fun a => a._id == id) = false
    by_cases hb : (b._id == id) = true
    · rw [if_pos hb]
      have hbid : b._id = id := by simpa using hb
      subst hbid
      rw [List.any_eq_false]
      intro x hx
      simp only [beq_iff_eq]
      intro hxid
      exact hnodup.1 (hxid ▸ List.mem_map_of_mem (fun a => a._id) hx)
    · rw [if_neg hb]
      simp only [List.any_cons, Bool.or_eq_false_iff]
      exact ⟨by simpa using hb, ih hnodup.2⟩

/-- C8: under a valid caller and pairwise distinct document keys, a delete
whose key matches no document fails with the not-found error while the
attempted removal leaves the collection untouched, and a delete that
succeeded makes an immediate second delete of the same key fail with the
not-found error as well. -/
theorem c8_delete_not_found (teachers : List String) (u : String) (id : Nat)
    (db db2 : List Announcement)
    (hauth : checkAuth teachers (some u) = .ok ())
    (hnodup : (db.map (fun a => a._id)).Nodup) :
    (db.any (fun a => a._id == id) = false →
      delete_announcement teachers id (some u) db = .error .notFound
        ∧ eraseFirst id db = db)
    ∧ (delete_announcement teachers id (some u) db = .ok db2 →
      delete_announcement teachers id (some u) db2 = .error .notFound) := by
  constructor
  · intro hnone
    refine ⟨?_, eraseFirst_no_match id db hnone⟩
    simp [delete_announcement, hauth, hnone]
  · intro hok
    unfold delete_announcement at hok
    rw [hauth] at hok
    by_cases hany : db.any (fun a => a._id == id) = true
    · simp only [hany, if_true] at hok
      have hdb2 : db2 = eraseFirst id db := (Except.ok.inj hok).symm
      subst hdb2
      have h2 := any_eraseFirst_nodup id db hnodup
      simp [delete_announcement, hauth, h2]
    · rw [if_neg ?hc] at hok
      · exact Except.noConfusion hok
      · simpa using hany

/-- Witness for C8: deleting key 2 from a one-document store with key 1
fails not-found and removes nothing; deleting key 1 succeeds and a repeat
delete fails not-found. -/
theorem c8_delete_not_found_witness :
    (delete_announcement ["t"] 2 (some "t")
        [⟨1, "T", "M", "2099-01-01", some none, "t", "c", none⟩]
      = .error .notFound
      ∧ eraseFirst 2 [⟨1, "T", "M", "2099-01-01", some none, "t", "c", none⟩]
        = [⟨1, "T", "M", "2099-01-01", some none, "t", "c", none⟩])
    ∧ delete_announcement ["t"] 1 (some "t") ([] : List Announcement)
      = .error .notFound := by
  have h1 := c8_delete_not_found ["t"] "t" 2
    [⟨1, "T", "M", "2099-01-01", some none, "t", "c", none⟩]
    [] (by decide) (by simp)
  have h2 := c8_delete_not_found ["t"] "t" 1
    [⟨1, "T", "M", "2099-01-01", some none, "t", "c", none⟩]
    [] (by decide) (by simp)
  exact ⟨h1.1 (by decide), h2.2 (by decide)⟩

/-- C10: every successful update stamps updated_at with the call-time
timestamp, whatever fields were supplied; and an authenticated update of an
existing document that supplies no content fields (title, message and
expiration_date absent or empty, start_date absent), with a timestamp that
differs from the stored updated_at, still modifies the document — the $set
always writes updated_at — and returns success rather than the
update-failed error. -/
theorem c10_updated_at_stamp (teachers : List String) (now : String)
    (id : Nat) (t m e s u : Option String) (db : List Announcement)
    (a : Announcement)
    (hauth : checkAuth teachers u = .ok ()) :
    (∀ db2 d, update_announcement teachers now id t m e s u db = .ok (db2, d) →
      d.updated_at = some now)
    ∧ (findDoc db id = some a → a.updated_at ≠ some now →
      pyTruthy t = false → pyTruthy m = false → pyTruthy e = false →
      s = none →
      update_announcement teachers now id t m e s u db
        = .ok (setFirst id { a with updated_at := some now } db,
               { a with updated_at := some now })) := by
  constructor
  · intro db2 d hupd
    unfold update_announcement at hupd
    cases hF : findDoc db id with
    | none => simp only [hauth, hF] at hupd; simp at hupd
    | some a0 =>
      cases hB : buildUpdateData t m e s with
      | error er => simp only [hauth, hF, hB] at hupd; simp at hupd
      | ok ud =>
        cases hR : rangeCheck a0 ud with
        | some er => simp only [hauth, hF, hB, hR] at hupd; simp at hupd
        | none =>
          by_cases hnd : applyUpdate a0 ud now = a0
          · simp only [hauth, hF, hB, hR, if_pos hnd] at hupd; simp at hupd
          · simp only [hauth, hF, hB, hR, if_neg hnd, Except.ok.injEq,
              Prod.mk.injEq] at hupd
            rw [← hupd.2]
            rfl
  · intro hfind hne hpt hpm hpe hs
    subst hs
    have hB : buildUpdateData t m e none = .ok emptyUpdateData := by
      have hsn : pyTruthy (none : Option String) = false := rfl
      simp [buildUpdateData, udOf, hpt, hpm, hpe, hsn, emptyUpdateData]
    have hR : rangeCheck a emptyUpdateData = none := rfl
    have happ : applyUpdate a emptyUpdateData now
        = { a with updated_at := some now } := rfl
    have hnd : ({ a with updated_at := some now } : Announcement) ≠ a := by
      intro hq
      exact hne (congrArg Announcement.updated_at hq).symm
    unfold update_announcement
    simp only [hauth, hfind, hB, hR, happ, if_neg hnd]

/-- Witness for C10: an authenticated update with every field parameter
omitted succeeds and rewrites only updated_at. -/
theorem c10_updated_at_stamp_witness :
    update_announcement ["t"] "2024-06-02T10:00:00" 5 none none none none
        (some "t")
        [⟨5, "T", "M", "2099-12-31", some (some "2020-01-01"), "t", "c",
          none⟩]
      = .ok ([⟨5, "T", "M", "2099-12-31", some (some "2020-01-01"), "t", "c",
              some "2024-06-02T10:00:00"⟩],
             ⟨5, "T", "M", "2099-12-31", some (some "2020-01-01"), "t", "c",
              some "2024-06-02T10:00:00"⟩) := by
  have h := c10_updated_at_stamp ["t"] "2024-06-02T10:00:00" 5 none none none
    none (some "t")
    [⟨5, "T", "M", "2099-12-31", some (some "2020-01-01"), "t", "c", none⟩]
    ⟨5, "T", "M", "2099-12-31", some (some "2020-01-01"), "t", "c", none⟩
    (by decide)
  exact h.2 (by decide) (by decide) (by decide) (by decide) (by decide) rfl

/-- Applying the same update_data twice with the same timestamp is the same
as applying it once. -/
theorem applyUpdate_idem (a : Announcement) (ud : UpdateData) (now : String) :
    applyUpdate (applyUpdate a ud now) ud now = applyUpdate a ud now := by
  obtain ⟨ot, om, oe, os⟩ := ud
  cases ot <;> cases om <;> cases oe <;> cases os <;> simp [applyUpdate]

/-- After update_one replaces the found document, find_one at the same key
returns the replacement. -/
theorem findDoc_setFirst (id : Nat) (nd a : Announcement)
    (db : List Announcement) (hid : nd._id = a._id)
    (h : findDoc db id = some a) :
    findDoc (setFirst id nd db) id = some nd := by
  induction db with
  | nil => exact absurd h (by simp [findDoc])
  | cons b rest ih =>
    unfold findDoc at h ⊢
    by_cases hb : (b._id == id) = true
    · rw [@List.find?_cons_of_pos _ (fun x => x._id == id) b rest hb] at h
      have hba : b = a := Option.some.inj h
      show List.find? _ (if b._id == id then nd :: rest
        else b :: setFirst id nd rest) = some nd
      rw [if_pos hb]
      refine @List.find?_cons_of_pos _ (fun x => x._id == id) nd rest ?_
      show (nd._id == id) = true
      rw [hid, ← hba]
      exact hb
    · rw [@List.find?_cons_of_neg _ (fun x => x._id == id) b rest hb] at h
      show List.find? _ (if b._id == id then nd :: rest
        else b :: setFirst id nd rest) = some nd
      rw [if_neg hb, @List.find?_cons_of_neg _ (fun x => x._id == id) b
        (setFirst id nd rest) hb]
      exact ih h

/-- The effective start value the range check would see after the $set is
either unchanged or falsy (a cleared or emptied start never retriggers the
comparison). -/
theorem effectiveStart_applyUpdate (a : Announcement) (ud : UpdateData)
    (now : String) :
    effectiveStart (applyUpdate a ud now) ud = effectiveStart a ud
    ∨ pyTruthy (effectiveStart (applyUpdate a ud now) ud) = false := by
  obtain ⟨ot, om, oe, os⟩ := ud
  cases os with
  | none => left; rfl
  | some osv =>
    cases osv with
    | none => right; rfl
    | some sv =>
      by_cases hsv : sv = ""
      · subst hsv; right; rfl
      · left
        simp [effectiveStart, udGetStart, pyOrOpt, pyTruthy, hsv]

/-- The effective expiration value the range check would see after the $set
is either unchanged or falsy. -/
theorem effectiveExp_applyUpdate (a : Announcement) (ud : UpdateData)
    (now : String) :
    effectiveExp (applyUpdate a ud now) ud = effectiveExp a ud
    ∨ pyTruthy (effectiveExp (applyUpdate a ud now) ud) = false := by
  obtain ⟨ot, om, oe, os⟩ := ud
  cases oe with
  | none => left; rfl
  | some ev =>
    by_cases hev : ev = ""
    · subst hev; right; rfl
    · left
      simp [effectiveExp, pyOrOpt, pyTruthy, hev]

/-- A document state that passed the update range check still passes it
after the corresponding $set. -/
theorem rangeCheck_applyUpdate (a : Announcement) (ud : UpdateData)
    (now : String) (h : rangeCheck a ud = none) :
    rangeCheck (applyUpdate a ud now) ud = none := by
  unfold rangeCheck at h ⊢
  by_cases hg : (ud.start_date.isSome || ud.expiration_date.isSome) = true
  · rw [if_pos hg] at h ⊢
    rcases effectiveStart_applyUpdate a ud now with hS | hS
    · rcases effectiveExp_applyUpdate a ud now with hE | hE
      · rw [hS, hE]
        exact h
      · simp [hE]
    · simp [hS]
  · rw [if_neg hg]

/-- C9: update is idempotent on the store: running the same update call
(same key, same field payload, same caller, same call clock) twice ends in
the same store as running it once.  A successful first call makes the
repeated $set write identical values, so the store reports zero modified
documents and the handler answers with the update-failed error while the
store keeps the state the first call produced. -/
theorem c9_update_idempotent (teachers : List String) (now : String)
    (id : Nat) (t m e s u : Option String) (db : List Announcement) :
    updateEndStore teachers now id t m e s u
        (updateEndStore teachers now id t m e s u db)
      = updateEndStore teachers now id t m e s u db := by
  unfold updateEndStore update_announcement
  cases hA : checkAuth teachers u with
  | error er => simp
  | ok u0 =>
    cases hF : findDoc db id with
    | none => simp [hF]
    | some a =>
      cases hB : buildUpdateData t m e s with
      | error er => simp [hF, hB]
      | ok ud =>
        cases hR : rangeCheck a ud with
        | some er => simp [hF, hB, hR]
        | none =>
          by_cases hnd : applyUpdate a ud now = a
          · simp [hF, hB, hR, hnd]
          · have h2 : findDoc (setFirst id (applyUpdate a ud now) db) id
                = some (applyUpdate a ud now) :=
              findDoc_setFirst id (applyUpdate a ud now) a db rfl hF
            have h3 := rangeCheck_applyUpdate a ud now hR
            have h4 := applyUpdate_idem a ud now
            simp [hF, hB, hR, hnd, h2, h3, h4]

end Announcements
